import Mathlib

/-
Verification of the conversation/request engine of `src/chatgpt.py`: a
shallow embedding of the session state (the global `messages` list and the
two token counters), of `start_prompt`, of the `while True` loop of `main`,
and of the expense accounting (`calculate_expense`, `display_expense`,
`PRICING_RATE`), together with theorems about rollback, classification,
usage accounting and cost formatting.
-/

namespace ChatGPT

/-- A role-tagged chat message, one of the dicts held in the global
`messages` list of the script. -/
structure Message where
  role : String
  content : String
deriving DecidableEq, Repr

/-- The `usage` object of a 200 response body: the two token counts read at
source lines 208-209. -/
structure Usage where
  prompt_tokens : Nat
  completion_tokens : Nat
deriving DecidableEq, Repr

/-- The parts of a response JSON body that `start_prompt` reads: the list of
choice messages (line 196), the `usage` object (line 197), and the optional
`error` object with its optional `code` and `message` fields (lines
215-217). `errorObj = none` models a body with no `error` key; an inner
`none` models the sub-key being absent. -/
structure ApiBody where
  choices : List Message
  usage : Option Usage
  errorObj : Option (Option String × Option String)
deriving DecidableEq, Repr

/-- The result of the `requests.post` call at source line 181: a connection
error, a timeout, or an HTTP response with a status code and a body. -/
inductive NetResult where
  | connectionError
  | timeout
  | response (status : Nat) (body : ApiBody)
deriving DecidableEq, Repr

/-- The mutable session state of the script: the global `messages` list and
the global `prompt_tokens` and `completion_tokens` counters. -/
structure TurnState where
  messages : List Message
  prompt_tokens : Nat
  completion_tokens : Nat
deriving DecidableEq, Repr

/-- The classified result of one performed request attempt. `crash` models an
uncaught Python exception (a 200 body without the expected fields). -/
inductive Outcome where
  | success (message : Message) (usage : Usage)
  | recoverable (reason : String)
  | fatal (reason : String)
  | crash
deriving DecidableEq, Repr

/-- What one call of `start_prompt` did: quit token (EOFError before any
request), empty input (KeyboardInterrupt before any request), or a performed
request with its classified outcome. -/
inductive StepOutcome where
  | quit
  | emptyReprompt
  | requested (o : Outcome)
deriving DecidableEq, Repr

/-- Whether the step performed the network call at source line 181. -/
def StepOutcome.madeRequest : StepOutcome → Bool
  | .requested _ => true
  | _ => false

/-- The outcome kinds of the specification. -/
inductive OutcomeKind where
  | success
  | recoverable
  | fatal
  | crash
deriving DecidableEq, Repr

/-- The kind of a step outcome, `none` when no request was attempted. -/
def StepOutcome.kind : StepOutcome → Option OutcomeKind
  | .quit => none
  | .emptyReprompt => none
  | .requested (.success _ _) => some .success
  | .requested (.recoverable _) => some .recoverable
  | .requested (.fatal _) => some .fatal
  | .requested .crash => some .crash

/-- Python `str.lower`, character by character (ASCII: the script only
compares the lowered input against `/q` and the empty string). -/
def strLower (s : String) : String := String.mk (s.toList.map Char.toLower)

/-- One call of `start_prompt` (source lines 148-261) as a state transition.
`message` is the user-entered line and `net` stands for what the network
call returns. Python exceptions become `StepOutcome`s: the `raise EOFError`
on the quit token is `.quit`, the `raise KeyboardInterrupt` on empty input
is `.emptyReprompt`, and a performed request is `.requested o` with `o`
mirroring the branch taken on the response. In the 400 branch the source
assigns `err_codeword, err_message` and then executes an unconditional
`raise KeyError` (line 218), whose handler prints a generic diagnostic and
raises EOFError; so every 400 body with an `error` object takes that
handler, every other 400 body takes the AssertionError handler, and the
`context_length_exceeded` comparison at line 231 is never reached (that
dead sub-parser is embedded separately as `parseContextLength`). The fatal
paths (400, 401, unknown status) raise EOFError without popping the user
message appended at line 168; the recoverable paths (connection error,
timeout, 429, 502, 503) pop it before raising KeyboardInterrupt. -/
def start_prompt (message : String) (net : NetResult) (st : TurnState) :
    TurnState × StepOutcome :=
  if strLower message = "/q" then (st, .quit)
  else if strLower message = "" then (st, .emptyReprompt)
  else
    let st1 : TurnState :=
      { st with messages := st.messages ++ [ Message.mk "user" message ] }
    match net with
    | .connectionError =>
        ({ st1 with messages := st1.messages.dropLast },
          .requested (.recoverable "Connection error, try again..."))
    | .timeout =>
        ({ st1 with messages := st1.messages.dropLast },
          .requested (.recoverable "Connection timed out, try again..."))
    | .response status body =>
        if status = 200 then
          match body.choices.head?, body.usage with
          | some m, some u =>
              (TurnState.mk (st1.messages ++ [ m ])
                (st1.prompt_tokens + u.prompt_tokens)
                (st1.completion_tokens + u.completion_tokens),
                .requested (.success m u))
          | _, _ => (st1, .requested .crash)
        else if status = 400 then
          match body.errorObj with
          | some _ =>
              (st1, .requested (.fatal "Invalid request please review API response:"))
          | none =>
              (st1, .requested
                (.fatal "Invalid request and could not find error details in API 404 response:"))
        else if status = 401 then
          (st1, .requested (.fatal "Invalid API Key"))
        else if status = 429 then
          ({ st1 with messages := st1.messages.dropLast },
            .requested (.recoverable "Rate limit or maximum monthly limit exceeded"))
        else if status = 502 ∨ status = 503 then
          ({ st1 with messages := st1.messages.dropLast },
            .requested (.recoverable "The server seems to be overloaded, try again"))
        else
          (st1, .requested (.fatal ("Unknown error, status code " ++ toString status)))

/-- One scripted turn: the user-entered line and what the network returns
for it (unused when no request is made). -/
structure TurnInput where
  message : String
  net : NetResult
deriving DecidableEq, Repr

/-- How a run of the loop ended: the scripted inputs ran out with the loop
still going, the loop broke out of `while True` via EOFError, or an
uncaught exception escaped. -/
inductive LoopExit where
  | scriptEnded
  | terminated
  | crashed
deriving DecidableEq, Repr

/-- The `while True` loop of `main` (source lines 325-331): a
KeyboardInterrupt continues the loop, an EOFError breaks out of it. -/
def runLoop : List TurnInput → TurnState → TurnState × LoopExit
  | [], st => (st, .scriptEnded)
  | i :: is, st =>
      match start_prompt i.message i.net st with
      | (st1, .quit) => (st1, .terminated)
      | (st1, .emptyReprompt) => runLoop is st1
      | (st1, .requested (.success _ _)) => runLoop is st1
      | (st1, .requested (.recoverable _)) => runLoop is st1
      | (st1, .requested (.fatal _)) => (st1, .terminated)
      | (st1, .requested .crash) => (st1, .crashed)

/-- `PRICING_RATE` (source lines 33-42): model identifier to the pair of
prompt and completion rates per 1000 tokens, as exact rationals. -/
def PRICING_RATE : List (String × ℚ × ℚ) :=
  [ ("gpt-3.5-turbo", 15 / 10000, 2 / 1000),
    ("gpt-3.5-turbo-0613", 15 / 10000, 2 / 1000),
    ("gpt-3.5-turbo-16k", 3 / 1000, 4 / 1000),
    ("gpt-4", 3 / 100, 6 / 100),
    ("gpt-4-0613", 3 / 100, 6 / 100),
    ("gpt-4-32k", 6 / 100, 12 / 100),
    ("gpt-4-32k-0613", 6 / 100, 12 / 100),
    ("gpt-3.5-turbo-16k-0613", 3 / 1000, 4 / 1000) ]

/-- Python dict indexing `pricing[model]`: `none` models the `KeyError`
raised for a model identifier absent from the table. -/
def lookupRate (pricing : List (String × ℚ × ℚ)) (model : String) :
    Option (ℚ × ℚ) :=
  match pricing.find? (fun p => p.1 == model) with
  | some p => some p.2
  | none => none

/-- Round half to even, the tie-breaking of the Python builtin `round`
applied to an exact rational. -/
def roundHalfEven (q : ℚ) : ℤ :=
  if q - q.floor < 1 / 2 then q.floor
  else if (1 : ℚ) / 2 < q - q.floor then q.floor + 1
  else if q.floor % 2 = 0 then q.floor else q.floor + 1

/-- Pad a digit string with zeros on the left to the given length. -/
def padLeftZeros (s : String) (len : Nat) : String :=
  String.mk (List.replicate (len - s.length) (Char.ofNat 48)) ++ s

/-- Decimal notation of `n / 10^6` with exactly six digits after the point,
the `"0.002500"`-style output of the format string at source line 128. -/
def formatSixDecimals (n : ℤ) : String :=
  (if n < 0 then "-" else "") ++ toString (n.natAbs / 1000000) ++ "." ++
    padLeftZeros (toString (n.natAbs % 1000000)) 6

/-- `calculate_expense` (source lines 114-130) over exact rationals: the
expense `(prompt_tokens / 1000) * prompt_pricing +
(completion_tokens / 1000) * completion_pricing`, rounded to six decimals
and formatted in decimal notation. -/
def calculate_expense (prompt_tokens completion_tokens : Nat)
    (prompt_pricing completion_pricing : ℚ) : String :=
  let expense : ℚ := (((prompt_tokens : ℚ)) / 1000) * prompt_pricing +
    (((completion_tokens : ℚ)) / 1000) * completion_pricing
  formatSixDecimals (roundHalfEven (expense * 1000000))

/-- `display_expense` (source lines 133-145): look the model up in the
pricing table and format the total expense; the `KeyError` on an
unconfigured model identifier is `Except.error` carrying the key. -/
def display_expense (pricing : List (String × ℚ × ℚ)) (model : String)
    (prompt_tokens completion_tokens : Nat) : Except String String :=
  match lookupRate pricing model with
  | none => .error model
  | some pr => .ok (calculate_expense prompt_tokens completion_tokens pr.1 pr.2)

/-- A whole session: the loop of `main` followed by the `atexit`-registered
`display_expense` call (source line 309), which computes the expense report
from the final counters. -/
def runSession (pricing : List (String × ℚ × ℚ)) (model : String)
    (inputs : List TurnInput) (st : TurnState) :
    (TurnState × LoopExit) × Except String String :=
  let r := runLoop inputs st
  (r, display_expense pricing model r.1.prompt_tokens r.1.completion_tokens)

/-- The ASCII apostrophe. -/
def apos : Char := Char.ofNat 39

/-- First literal piece of the regular expression at source line 233. -/
def ctxLit1 : List Char :=
  ("This model" ++ String.mk [ apos ] ++ "s maximum context length is ").toList

/-- The literal piece after each digit group of the pattern. -/
def ctxLitTokens : List Char := " tokens".toList

/-- The literal piece before the second digit group of the pattern. -/
def ctxLit3 : List Char := "your messages resulted in ".toList

/-- Consume an exact literal from the front, the rest on a match. -/
def stripLit : List Char → List Char → Option (List Char)
  | [], cs => some cs
  | _ :: _, [] => none
  | p :: ps, c :: cs => if c = p then stripLit ps cs else none

/-- The longest digit run at the front, with the rest. -/
def takeDigits : List Char → List Char × List Char
  | [] => ([], [])
  | c :: cs =>
      if c.isDigit then
        let r := takeDigits cs
        (c :: r.1, r.2)
      else ([], c :: cs)

/-- Match `your messages resulted in `, a digit group `b`, ` tokens` at the
current position, returning the digit group. -/
def ctxTailAt (cs : List Char) : Option (List Char) :=
  match stripLit ctxLit3 cs with
  | none => none
  | some rest =>
      match takeDigits rest with
      | ([], _) => none
      | (ds, rest2) =>
          match stripLit ctxLitTokens rest2 with
          | none => none
          | some _ => some ds

/-- The lazy gap of the pattern: skip the fewest characters, none of them a
newline, before `ctxTailAt` matches. -/
def ctxTail : List Char → Option (List Char)
  | [] => none
  | c :: cs =>
      match ctxTailAt (c :: cs) with
      | some ds => some ds
      | none => if c = Char.ofNat 10 then none else ctxTail cs

/-- Match the whole pattern of source line 233 at the current position,
returning the two digit groups. -/
def ctxMatchAt (cs : List Char) : Option (List Char × List Char) :=
  match stripLit ctxLit1 cs with
  | none => none
  | some rest =>
      match takeDigits rest with
      | ([], _) => none
      | (as, rest2) =>
          match stripLit ctxLitTokens rest2 with
          | none => none
          | some rest3 =>
              match ctxTail rest3 with
              | some bs => some (as, bs)
              | none => none

/-- `re.search` over the pattern: try every start position, leftmost match
wins. -/
def ctxSearch : List Char → Option (List Char × List Char)
  | [] => none
  | c :: cs =>
      match ctxMatchAt (c :: cs) with
      | some r => some r
      | none => ctxSearch cs

/-- Python `int` on a digit string. -/
def digitsToNat (ds : List Char) : Nat :=
  ds.foldl (fun n c => n * 10 + (c.toNat - 48)) 0

/-- The context-length sub-parser of source lines 231-242 (dead code in the
script, see `start_prompt`): the `int` of groups `a` (maximum context
length) and `b` (tokens sent) of the regex at line 233, with the overage
`b - a` computed at line 236; `none` models the fall to the generic
`Maximum context length exceeded.` message at line 241. -/
def parseContextLength (err_message : String) : Option (Nat × Nat × Int) :=
  match ctxSearch err_message.toList with
  | some r =>
      some (digitsToNat r.1, digitsToNat r.2,
        ((digitsToNat r.2 : Int)) - ((digitsToNat r.1 : Int)))
  | none => none

/-- The example error message of the specification, with the apostrophe in
`model's`. -/
def ctxExampleMsg : String :=
  "This model" ++ String.mk [ apos ] ++
    "s maximum context length is 4096 tokens... your messages resulted in 4500 tokens"

/-- The prompt-token increment of one step: the usage added at source line
208 on a 200 response, zero on every other path. -/
def promptDelta : StepOutcome → Nat
  | .requested (.success _ u) => u.prompt_tokens
  | _ => 0

/-- The completion-token increment of one step: the usage added at source
line 209 on a 200 response, zero on every other path. -/
def completionDelta : StepOutcome → Nat
  | .requested (.success _ u) => u.completion_tokens
  | _ => 0

/-- Helper: the prompt-token counter after one step is exactly the counter
before plus the step increment. -/
theorem step_prompt_tokens (message : String) (net : NetResult) (st : TurnState) :
    (start_prompt message net st).1.prompt_tokens =
      st.prompt_tokens + promptDelta (start_prompt message net st).2 := by
  unfold start_prompt
  by_cases hq : strLower message = "/q"
  · simp [hq, promptDelta]
  by_cases he : strLower message = ""
  · simp [hq, he, promptDelta]
  rcases net with _ | _ | ⟨status, body⟩
  · simp [hq, he, promptDelta]
  · simp [hq, he, promptDelta]
  by_cases h200 : status = 200
  · subst h200
    cases hc : body.choices.head? <;> cases hu : body.usage <;>
      simp [hq, he, hc, hu, promptDelta]
  by_cases h400 : status = 400
  · subst h400
    cases hb : body.errorObj <;> simp [hq, he, h200, hb, promptDelta]
  by_cases h401 : status = 401
  · subst h401
    simp [hq, he, h200, promptDelta]
  by_cases h429 : status = 429
  · subst h429
    simp [hq, he, h200, h400, h401, promptDelta]
  by_cases h5 : status = 502 ∨ status = 503
  · simp [hq, he, h200, h400, h401, h429, h5, promptDelta]
  · simp [hq, he, h200, h400, h401, h429, h5, promptDelta]

/-- Helper: the completion-token counter after one step is exactly the
counter before plus the step increment. -/
theorem step_completion_tokens (message : String) (net : NetResult) (st : TurnState) :
    (start_prompt message net st).1.completion_tokens =
      st.completion_tokens + completionDelta (start_prompt message net st).2 := by
  unfold start_prompt
  by_cases hq : strLower message = "/q"
  · simp [hq, completionDelta]
  by_cases he : strLower message = ""
  · simp [hq, he, completionDelta]
  rcases net with _ | _ | ⟨status, body⟩
  · simp [hq, he, completionDelta]
  · simp [hq, he, completionDelta]
  by_cases h200 : status = 200
  · subst h200
    cases hc : body.choices.head? <;> cases hu : body.usage <;>
      simp [hq, he, hc, hu, completionDelta]
  by_cases h400 : status = 400
  · subst h400
    cases hb : body.errorObj <;> simp [hq, he, h200, hb, completionDelta]
  by_cases h401 : status = 401
  · subst h401
    simp [hq, he, h200, completionDelta]
  by_cases h429 : status = 429
  · subst h429
    simp [hq, he, h200, h400, h401, completionDelta]
  by_cases h5 : status = 502 ∨ status = 503
  · simp [hq, he, h200, h400, h401, h429, h5, completionDelta]
  · simp [hq, he, h200, h400, h401, h429, h5, completionDelta]

/-- Helper: both token counters are non-decreasing across any run of the
loop. -/
theorem runLoop_tokens_le (inputs : List TurnInput) (st : TurnState) :
    st.prompt_tokens ≤ (runLoop inputs st).1.prompt_tokens ∧
    st.completion_tokens ≤ (runLoop inputs st).1.completion_tokens := by
  induction inputs generalizing st with
  | nil => simp [runLoop]
  | cons i is ih =>
      have hp := step_prompt_tokens i.message i.net st
      have hc := step_completion_tokens i.message i.net st
      unfold runLoop
      rcases hsp : start_prompt i.message i.net st with ⟨st1, o⟩
      rw [hsp] at hp hc
      cases o with
      | quit =>
          dsimp only
          simp only [promptDelta, completionDelta] at hp hc
          exact ⟨by omega, by omega⟩
      | emptyReprompt =>
          dsimp only
          simp only [promptDelta, completionDelta] at hp hc
          obtain ⟨ih1, ih2⟩ := ih st1
          exact ⟨by omega, by omega⟩
      | requested o =>
          cases o with
          | success m u =>
              dsimp only
              simp only [promptDelta, completionDelta] at hp hc
              obtain ⟨ih1, ih2⟩ := ih st1
              exact ⟨by omega, by omega⟩
          | recoverable r =>
              dsimp only
              simp only [promptDelta, completionDelta] at hp hc
              obtain ⟨ih1, ih2⟩ := ih st1
              exact ⟨by omega, by omega⟩
          | fatal r =>
              dsimp only
              simp only [promptDelta, completionDelta] at hp hc
              exact ⟨by omega, by omega⟩
          | crash =>
              dsimp only
              simp only [promptDelta, completionDelta] at hp hc
              exact ⟨by omega, by omega⟩

/-- C1: for every performed request attempt the outcome is classified purely
from the HTTP status code: 200 yields Success with the assistant message and
usage taken from the body, 429, 502 and 503 yield RecoverableFailure, and
400, 401 and every other status (418 included) yield FatalFailure. -/
theorem classification_by_status (message : String) (status : Nat) (body : ApiBody)
    (st : TurnState)
    (hq : strLower message ≠ "/q") (he : strLower message ≠ "")
    (hwf : status = 200 → body.choices.head?.isSome ∧ body.usage.isSome) :
    ((start_prompt message (.response status body) st).2.kind =
      some (if status = 200 then .success
        else if status = 429 ∨ status = 502 ∨ status = 503 then .recoverable
        else .fatal)) ∧
    (∀ m u, status = 200 → body.choices.head? = some m → body.usage = some u →
      (start_prompt message (.response status body) st).2 =
        .requested (.success m u)) := by
  constructor
  · unfold start_prompt
    rw [if_neg hq, if_neg he]
    by_cases h200 : status = 200
    · subst h200
      obtain ⟨h1, h2⟩ := hwf rfl
      obtain ⟨m, hm⟩ := Option.isSome_iff_exists.mp h1
      obtain ⟨u, hu⟩ := Option.isSome_iff_exists.mp h2
      simp [hm, hu, StepOutcome.kind]
    · by_cases h400 : status = 400
      · subst h400
        cases hb : body.errorObj <;> simp [hb, StepOutcome.kind]
      · by_cases h401 : status = 401
        · subst h401
          simp [StepOutcome.kind]
        · by_cases h429 : status = 429
          · subst h429
            simp [StepOutcome.kind]
          · by_cases h502 : status = 502 ∨ status = 503
            · simp [h200, h400, h401, h429, h502, StepOutcome.kind]
            · simp [h200, h400, h401, h429, h502, StepOutcome.kind]
  · intro m u h200 hm hu
    subst h200
    unfold start_prompt
    rw [if_neg hq, if_neg he]
    simp [hm, hu]

/-- Witness for C1: a 418 response is classified fatal. -/
theorem classification_by_status_witness :
    (start_prompt "hello" (.response 418 (ApiBody.mk [] none none))
      (TurnState.mk [] 0 0)).2.kind = some OutcomeKind.fatal := by
  have h := (classification_by_status "hello" 418 (ApiBody.mk [] none none)
    (TurnState.mk [] 0 0) (by decide) (by decide) (by decide)).1
  exact h.trans (by decide)

/-- C2: the context-length sub-parser embedded from source lines 231-242
does extract max=4096, sent=4500 and overage=404 from the example message,
but `start_prompt` never reaches it: a 400 response carrying exactly that
error code and message takes the handler of the unconditional
`raise KeyError` at line 218 and yields the generic fatal diagnostic
instead of the parsed report. -/
theorem context_length_dead_code :
    parseContextLength ctxExampleMsg = some (4096, 4500, 404) ∧
    (start_prompt "hi"
      (.response 400 (ApiBody.mk [] none
        (some (some "context_length_exceeded", some ctxExampleMsg))))
      (TurnState.mk [] 0 0)).2 =
      .requested (.fatal "Invalid request please review API response:") := by
  exact ⟨by decide, by decide⟩

/-- Counterexample to C3 as stated: a 401 attempt fails, yet the store
afterwards differs from the store before — it still holds the
speculatively appended user message, because the fatal paths raise EOFError
without popping it. -/
theorem fatal_leaves_user_message :
    (start_prompt "hi" (.response 401 (ApiBody.mk [] none none))
        (TurnState.mk [] 0 0)).1.messages ≠ (TurnState.mk [] 0 0).messages ∧
    (start_prompt "hi" (.response 401 (ApiBody.mk [] none none))
        (TurnState.mk [] 0 0)).1.messages = [ Message.mk "user" "hi" ] := by
  exact ⟨by decide, by decide⟩

/-- C3 amended: an attempt that fails recoverably leaves the store exactly
as before; an attempt that fails fatally leaves exactly the speculative
user message appended (and the session then terminates). -/
theorem failed_attempt_store (message : String) (net : NetResult) (st : TurnState) :
    ((start_prompt message net st).2.kind = some .recoverable →
      (start_prompt message net st).1.messages = st.messages) ∧
    ((start_prompt message net st).2.kind = some .fatal →
      (start_prompt message net st).1.messages =
        st.messages ++ [ Message.mk "user" message ]) := by
  unfold start_prompt
  by_cases hq : strLower message = "/q"
  · simp [hq, StepOutcome.kind]
  by_cases he : strLower message = ""
  · simp [hq, he, StepOutcome.kind]
  rcases net with _ | _ | ⟨status, body⟩
  · simp [hq, he, StepOutcome.kind, List.dropLast_concat]
  · simp [hq, he, StepOutcome.kind, List.dropLast_concat]
  by_cases h200 : status = 200
  · subst h200
    cases hc : body.choices.head? <;> cases hu : body.usage <;>
      simp [hq, he, hc, hu, StepOutcome.kind]
  by_cases h400 : status = 400
  · subst h400
    cases hb : body.errorObj <;> simp [hq, he, h200, hb, StepOutcome.kind]
  by_cases h401 : status = 401
  · subst h401
    simp [hq, he, h200, StepOutcome.kind]
  by_cases h429 : status = 429
  · subst h429
    simp [hq, he, h200, h400, h401, StepOutcome.kind, List.dropLast_concat]
  by_cases h5 : status = 502 ∨ status = 503
  · simp [hq, he, h200, h400, h401, h429, h5, StepOutcome.kind,
      List.dropLast_concat]
  · simp [hq, he, h200, h400, h401, h429, h5, StepOutcome.kind]

/-- Witness for C3 amended: a 429 attempt leaves the empty store empty. -/
theorem failed_attempt_store_witness :
    (start_prompt "hi" (.response 429 (ApiBody.mk [] none none))
      (TurnState.mk [] 0 0)).1.messages = [] := by
  have h := (failed_attempt_store "hi" (.response 429 (ApiBody.mk [] none none))
    (TurnState.mk [] 0 0)).1 (by decide)
  simpa using h

/-- C4: a turn that yields a recoverable failure (connection error, timeout,
429, 502 or 503) pops the speculatively appended user message again: the
whole state after the turn equals the state before it. -/
theorem recoverable_rolls_back (message : String) (net : NetResult) (st : TurnState)
    (h : (start_prompt message net st).2.kind = some .recoverable) :
    (start_prompt message net st).1 = st := by
  unfold start_prompt at h ⊢
  by_cases hq : strLower message = "/q"
  · rw [if_pos hq] at h
    simp [StepOutcome.kind] at h
  · rw [if_neg hq] at h ⊢
    by_cases he : strLower message = ""
    · rw [if_pos he] at h
      simp [StepOutcome.kind] at h
    · rw [if_neg he] at h ⊢
      cases st with
      | mk msgs pt ct =>
        cases net with
        | connectionError => simp [List.dropLast_concat]
        | timeout => simp [List.dropLast_concat]
        | response status body =>
            by_cases h200 : status = 200
            · subst h200
              simp only [if_pos rfl] at h ⊢
              cases hc : body.choices.head? <;> cases hu : body.usage <;>
                simp [hc, hu, StepOutcome.kind] at h ⊢
            · by_cases h400 : status = 400
              · subst h400
                simp only [h200, if_neg, if_pos rfl, reduceIte] at h
                cases hb : body.errorObj <;> simp [hb, StepOutcome.kind] at h
              · by_cases h401 : status = 401
                · subst h401
                  simp [h200, StepOutcome.kind] at h
                · by_cases h429 : status = 429
                  · subst h429
                    simp [h200, h400, h401, List.dropLast_concat]
                  · by_cases h5 : status = 502 ∨ status = 503
                    · simp [h200, h400, h401, h429, h5, List.dropLast_concat]
                    · simp [h200, h400, h401, h429, h5, StepOutcome.kind] at h

/-- Witness for C4: a connection error on a nonempty store restores it. -/
theorem recoverable_rolls_back_witness :
    (start_prompt "hi" .connectionError
      (TurnState.mk [ Message.mk "system" "ctx" ] 5 7)).1 =
      TurnState.mk [ Message.mk "system" "ctx" ] 5 7 := by
  exact recoverable_rolls_back "hi" .connectionError
    (TurnState.mk [ Message.mk "system" "ctx" ] 5 7) (by decide)

/-- C5: a successful turn grows the store by exactly two messages — the
user message and then the assistant message taken from the response — and
changes nothing else in it. -/
theorem success_appends_two (message : String) (net : NetResult) (st : TurnState)
    (m : Message) (u : Usage)
    (h : (start_prompt message net st).2 = .requested (.success m u)) :
    (start_prompt message net st).1.messages =
      st.messages ++ [ Message.mk "user" message, m ] := by
  unfold start_prompt at h ⊢
  by_cases hq : strLower message = "/q"
  · rw [if_pos hq] at h
    simp at h
  · rw [if_neg hq] at h ⊢
    by_cases he : strLower message = ""
    · rw [if_pos he] at h
      simp at h
    · rw [if_neg he] at h ⊢
      cases net with
      | connectionError => simp at h
      | timeout => simp at h
      | response status body =>
          by_cases h200 : status = 200
          · subst h200
            simp only [if_pos rfl] at h ⊢
            cases hc : body.choices.head? <;> cases hu : body.usage <;>
              simp [hc, hu] at h ⊢
            obtain ⟨hm, _⟩ := h
            subst hm
            rfl
          · by_cases h400 : status = 400
            · subst h400
              simp only [h200, if_neg, if_pos rfl, reduceIte] at h
              cases hb : body.errorObj <;> simp [hb] at h
            · by_cases h401 : status = 401
              · subst h401
                simp [h200] at h
              · by_cases h429 : status = 429
                · subst h429
                  simp [h200, h400, h401] at h
                · by_cases h5 : status = 502 ∨ status = 503
                  · simp [h200, h400, h401, h429, h5] at h
                  · simp [h200, h400, h401, h429, h5] at h

/-- Witness for C5: a concrete 200 exchange appends the user and assistant
messages in order. -/
theorem success_appends_two_witness :
    (start_prompt "hello"
      (.response 200 (ApiBody.mk [ Message.mk "assistant" "hey" ]
        (some (Usage.mk 3 4)) none))
      (TurnState.mk [] 0 0)).1.messages =
      [ Message.mk "user" "hello", Message.mk "assistant" "hey" ] := by
  have h := success_appends_two "hello"
    (.response 200 (ApiBody.mk [ Message.mk "assistant" "hey" ]
      (some (Usage.mk 3 4)) none))
    (TurnState.mk [] 0 0) (Message.mk "assistant" "hey") (Usage.mk 3 4) (by decide)
  simpa using h

/-- C6: the expense for 1000 prompt tokens and 500 completion tokens at the
gpt-3.5-turbo rates 0.0015 and 0.002 per 1000 tokens is the string
0.002500, through the table lookup and the 6-decimal formatting. -/
theorem expense_concrete :
    (lookupRate PRICING_RATE "gpt-3.5-turbo").map
      (fun r => calculate_expense 1000 500 r.1 r.2) = some "0.002500" := by
  have h1 : lookupRate PRICING_RATE "gpt-3.5-turbo" = some (15 / 10000, 2 / 1000) := by
    rfl
  have h4 : calculate_expense 1000 500 (15 / 10000) (2 / 1000) = "0.002500" := by
    simp only [calculate_expense]
    have h2 : (((((1000 : Nat) : ℚ)) / 1000) * (15 / 10000) +
        ((((500 : Nat) : ℚ)) / 1000) * (2 / 1000)) * 1000000 = 2500 := by
      norm_num
    rw [h2]
    have h3 : roundHalfEven 2500 = 2500 := by
      unfold roundHalfEven
      norm_num [Rat.floor]
    rw [h3]
    decide
  simp [h1, h4]

/-- C7: a model identifier absent from the pricing table is a defined
lookup error, and it can only surface in the end-of-session expense
report: the loop result is the same whatever the pricing table holds. -/
theorem pricing_error_only_at_exit (p1 p2 : List (String × ℚ × ℚ)) (model : String)
    (inputs : List TurnInput) (st : TurnState)
    (h : lookupRate p1 model = none) :
    (runSession p1 model inputs st).1 = (runSession p2 model inputs st).1 ∧
    (runSession p1 model inputs st).2 = .error model := by
  constructor
  · rfl
  · simp only [runSession, display_expense, h]

/-- Witness for C7: an unconfigured model on an empty session errors at the
summary. -/
theorem pricing_error_only_at_exit_witness :
    (runSession ([] : List (String × ℚ × ℚ)) "gpt-5" [] (TurnState.mk [] 0 0)).2 =
      Except.error "gpt-5" := by
  exact (pricing_error_only_at_exit [] [] "gpt-5" [] (TurnState.mk [] 0 0)
    (by decide)).2

/-- C8: each step adds exactly the response usage to the two token counters
on a success and zero on every other path (so they change only on Success),
and across any scripted sequence of turns the totals never decrease. -/
theorem usage_monotone (message : String) (net : NetResult) (st : TurnState)
    (inputs : List TurnInput) :
    ((start_prompt message net st).1.prompt_tokens =
      st.prompt_tokens + promptDelta (start_prompt message net st).2) ∧
    ((start_prompt message net st).1.completion_tokens =
      st.completion_tokens + completionDelta (start_prompt message net st).2) ∧
    st.prompt_tokens ≤ (runLoop inputs st).1.prompt_tokens ∧
    st.completion_tokens ≤ (runLoop inputs st).1.completion_tokens := by
  exact ⟨step_prompt_tokens message net st, step_completion_tokens message net st,
    (runLoop_tokens_le inputs st).1, (runLoop_tokens_le inputs st).2⟩

/-- C9: an empty input performs no network call and changes nothing: the
step returns the state unchanged with the re-prompt outcome, and the loop
goes on with the remaining inputs from the same state. -/
theorem empty_input_noop (net : NetResult) (st : TurnState) (rest : List TurnInput) :
    start_prompt "" net st = (st, .emptyReprompt) ∧
    StepOutcome.emptyReprompt.madeRequest = false ∧
    runLoop (TurnInput.mk "" net :: rest) st = runLoop rest st := by
  exact ⟨rfl, rfl, rfl⟩

/-- C10: an input whose lowered form is the quit token /q performs no
network call, appends nothing, and terminates the loop cleanly. -/
theorem quit_token_terminates (message : String) (net : NetResult) (st : TurnState)
    (rest : List TurnInput) (h : strLower message = "/q") :
    start_prompt message net st = (st, .quit) ∧
    StepOutcome.quit.madeRequest = false ∧
    runLoop (TurnInput.mk message net :: rest) st = (st, .terminated) := by
  have h1 : start_prompt message net st = (st, .quit) := by
    unfold start_prompt
    rw [h]
    simp
  refine ⟨h1, rfl, ?_⟩
  unfold runLoop
  rw [h1]

/-- Witness for C10: the literal input /q quits with the store unchanged. -/
theorem quit_token_terminates_witness :
    runLoop [ TurnInput.mk "/q" .connectionError ]
      (TurnState.mk [] 0 0) = (TurnState.mk [] 0 0, .terminated) := by
  have h := (quit_token_terminates "/q" .connectionError (TurnState.mk [] 0 0) []
    (by decide)).2.2
  exact h

end ChatGPT
